import Mathlib

/-!
Verification development for the passkey platform core (WebAuthn client +
CTAP2 authenticator).  The repository sources available here are the client
test suite and the user-validation contract; the remaining operations
(RpIdVerifier, Authenticator, Client, MemoryStore) are modelled from the
design specification, with the in-repository tests pinning their behaviour
at every concrete point they exercise.

Machine integers are modelled as Nat with explicit reduction modulo 2^32
where 32-bit overflow matters; byte strings are lists of Nat below 256.
-/

namespace PasskeyRs

/-! ### Bytes and strings -/

/-- The code points of a string as a list of Nat.  All strings handled by the
claims are ASCII, where this agrees with the UTF-8 byte serialization. -/
def strBytes (s : String) : List Nat := s.data.map Char.toNat

/-- Big-endian byte encoding of a value into a fixed number of bytes. -/
def beBytes : Nat → Nat → List Nat
  | 0, _ => []
  | n + 1, v => beBytes n (v / 256) ++ [v % 256]

/-! ### SHA-256 (FIPS 180-4), on byte lists -/

/-- Rotate a 32-bit word right by n positions, on Nat with an explicit
reduction modulo 2^32. -/
def rotr32 (n x : Nat) : Nat := ((x >>> n) ||| (x <<< (32 - n))) % 2 ^ 32

def sigma0 (x : Nat) : Nat := rotr32 7 x ^^^ rotr32 18 x ^^^ (x >>> 3)

def sigma1 (x : Nat) : Nat := rotr32 17 x ^^^ rotr32 19 x ^^^ (x >>> 10)

def bigSigma0 (x : Nat) : Nat := rotr32 2 x ^^^ rotr32 13 x ^^^ rotr32 22 x

def bigSigma1 (x : Nat) : Nat := rotr32 6 x ^^^ rotr32 11 x ^^^ rotr32 25 x

/-- The 64 round constants of SHA-256 (FIPS 180-4 section 4.2.2), written in
decimal. -/
def sha256K : List Nat :=
  [1116352408, 1899447441, 3049323471, 3921009573, 961987163,
   1508970993, 2453635748, 2870763221, 3624381080, 310598401,
   607225278, 1426881987, 1925078388, 2162078206, 2614888103,
   3248222580, 3835390401, 4022224774, 264347078, 604807628,
   770255983, 1249150122, 1555081692, 1996064986, 2554220882,
   2821834349, 2952996808, 3210313671, 3336571891, 3584528711,
   113926993, 338241895, 666307205, 773529912, 1294757372,
   1396182291, 1695183700, 1986661051, 2177026350, 2456956037,
   2730485921, 2820302411, 3259730800, 3345764771, 3516065817,
   3600352804, 4094571909, 275423344, 430227734, 506948616,
   659060556, 883997877, 958139571, 1322822218, 1537002063,
   1747873779, 1955562222, 2024104815, 2227730452, 2361852424,
   2428436474, 2756734187, 3204031479, 3329325298]

/-- The eight initial hash words of SHA-256 (FIPS 180-4 section 5.3.3),
written in decimal. -/
def sha256H0 : List Nat :=
  [1779033703, 3144134277, 1013904242, 2773480762,
   1359893119, 2600822924, 528734635, 1541459225]

/-- Pad a message to a multiple of 64 bytes: 0x80, zeros, 64-bit bit length. -/
def sha256Pad (msg : List Nat) : List Nat :=
  let l := msg.length
  let zeros := (64 - (l + 9) % 64) % 64
  msg ++ [0x80] ++ List.replicate zeros 0 ++ beBytes 8 (8 * l)

/-- Group a byte list into big-endian 32-bit words. -/
def bytesToWords : List Nat → List Nat
  | a :: b :: c :: d :: rest =>
      (((a * 256 + b) * 256 + c) * 256 + d) :: bytesToWords rest
  | _ => []

/-- Extend the 16 words of a block into the 64-entry message schedule. -/
def sha256Schedule (block : List Nat) : List Nat :=
  (List.range 48).foldl
    (fun w _ =>
      let t := (sigma1 (w.getD (w.length - 2) 0) + w.getD (w.length - 7) 0 +
                sigma0 (w.getD (w.length - 15) 0) + w.getD (w.length - 16) 0) % 2 ^ 32
      w ++ [t])
    block

/-- One SHA-256 compression round over the state [a,b,c,d,e,f,g,h]. -/
def sha256Round (w : List Nat) (st : List Nat) (i : Nat) : List Nat :=
  match st with
  | [a, b, c, d, e, f, g, h] =>
    let ch := (e &&& f) ^^^ ((4294967295 - e) &&& g)
    let maj := (a &&& b) ^^^ (a &&& c) ^^^ (b &&& c)
    let t1 := (h + bigSigma1 e + ch + sha256K.getD i 0 + w.getD i 0) % 2 ^ 32
    let t2 := (bigSigma0 a + maj) % 2 ^ 32
    [(t1 + t2) % 2 ^ 32, a, b, c, (d + t1) % 2 ^ 32, e, f, g]
  | st => st

/-- Compress one 64-byte block into the running hash state. -/
def sha256Compress (h : List Nat) (block : List Nat) : List Nat :=
  let w := sha256Schedule (bytesToWords block)
  let fin := (List.range 64).foldl (sha256Round w) h
  (h.zip fin).map fun p => (p.1 + p.2) % 2 ^ 32

/-- SHA-256 of a byte list, as the 32 digest bytes. -/
def sha256 (msg : List Nat) : List Nat :=
  let padded := sha256Pad msg
  let final := (List.range (padded.length / 64)).foldl
    (fun h i => sha256Compress h ((padded.drop (64 * i)).take 64)) sha256H0
  (final.map (beBytes 4)).flatten

/-- SHA-256 of the bytes of an ASCII string. -/
def sha256Str (s : String) : List Nat := sha256 (strBytes s)

/-! ### base64url without padding (RFC 4648 section 5) -/

/-- The base64url alphabet. -/
def b64Alphabet : List Char :=
  "ABCDEFGHIJKLMNOPQRSTUVWXYZabcdefghijklmnopqrstuvwxyz0123456789-_".data

/-- The character for a 6-bit value. -/
def sextetChar (n : Nat) : Char := b64Alphabet.getD n 'A'

/-- The 6-bit value of an alphabet character, if any. -/
def sextetVal (c : Char) : Option Nat := b64Alphabet.findIdx? (· = c)

/-- Encode bytes into 6-bit groups, three bytes to four sextets, with the
final one or two bytes encoded into two or three sextets. -/
def b64EncodeGroups : List Nat → List Nat
  | [] => []
  | [a] => [a / 4, a % 4 * 16]
  | [a, b] => [a / 4, a % 4 * 16 + b / 16, b % 16 * 4]
  | a :: b :: c :: rest =>
      a / 4 :: (a % 4 * 16 + b / 16) :: (b % 16 * 4 + c / 64) :: c % 64 ::
        b64EncodeGroups rest

/-- Decode 6-bit groups back into bytes; rejects impossible group shapes and
nonzero trailing bits. -/
def b64DecodeGroups : List Nat → Option (List Nat)
  | [] => some []
  | [_] => none
  | [a, b] =>
      if a < 64 ∧ b < 64 ∧ b % 16 = 0 then some [a * 4 + b / 16] else none
  | [a, b, c] =>
      if a < 64 ∧ b < 64 ∧ c < 64 ∧ c % 4 = 0 then
        some [a * 4 + b / 16, b % 16 * 16 + c / 4]
      else none
  | a :: b :: c :: d :: rest =>
      (b64DecodeGroups rest).bind fun tail =>
        if a < 64 ∧ b < 64 ∧ c < 64 ∧ d < 64 then
          some ([a * 4 + b / 16, b % 16 * 16 + c / 4, c % 4 * 64 + d] ++ tail)
        else none

/-- Decode a character list through the alphabet, failing on foreign
characters. -/
def sextetVals : List Char → Option (List Nat)
  | [] => some []
  | c :: rest =>
      match sextetVal c, sextetVals rest with
      | some v, some t => some (v :: t)
      | _, _ => none

/-- base64url encoding of a byte list, without padding. -/
def b64urlEncode (l : List Nat) : String :=
  String.mk ((b64EncodeGroups l).map sextetChar)

/-- base64url decoding of a string, without padding. -/
def b64urlDecode (s : String) : Option (List Nat) :=
  (sextetVals s.data).bind b64DecodeGroups

/-! #### base64url round trip -/

/-- Decoding an alphabet character recovers its 6-bit value. -/
theorem sextetVal_sextetChar : ∀ n, n < 64 → sextetVal (sextetChar n) = some n := by
  decide

/-- Decoding the characters of encoded sextets recovers the sextets. -/
theorem sextetVals_map (l : List Nat) (h : ∀ x ∈ l, x < 64) :
    sextetVals (l.map sextetChar) = some l := by
  induction l with
  | nil => rfl
  | cons a t ih =>
    have ha : a < 64 := h a (List.mem_cons_self a t)
    have ht : ∀ x ∈ t, x < 64 := fun x hx => h x (List.mem_cons_of_mem a hx)
    simp [sextetVals, sextetVal_sextetChar a ha, ih ht]

/-- Encoding bytes yields sextets below 64. -/
theorem b64EncodeGroups_lt (l : List Nat) (h : ∀ x ∈ l, x < 256) :
    ∀ x ∈ b64EncodeGroups l, x < 64 := by
  induction l using b64EncodeGroups.induct with
  | case1 => simp [b64EncodeGroups]
  | case2 a =>
    have := h a (by simp)
    simp only [b64EncodeGroups, List.mem_cons, List.not_mem_nil, or_false]
    rintro x (rfl | rfl) <;> omega
  | case3 a b =>
    have := h a (by simp)
    have := h b (by simp)
    simp only [b64EncodeGroups, List.mem_cons, List.not_mem_nil, or_false]
    rintro x (rfl | rfl | rfl) <;> omega
  | case4 a b c rest ih =>
    have ha := h a (by simp)
    have hb := h b (by simp)
    have hc := h c (by simp)
    have hrest : ∀ x ∈ rest, x < 256 := fun x hx => h x (by simp [hx])
    simp only [b64EncodeGroups, List.mem_cons]
    rintro x (rfl | rfl | rfl | rfl | hx)
    · omega
    · omega
    · omega
    · omega
    · exact ih hrest x hx

/-- Decoding the sextet groups of an encoded byte list recovers the bytes. -/
theorem b64DecodeGroups_encode (l : List Nat) (h : ∀ x ∈ l, x < 256) :
    b64DecodeGroups (b64EncodeGroups l) = some l := by
  induction l using b64EncodeGroups.induct with
  | case1 => rfl
  | case2 a =>
    have ha := h a (by simp)
    have h1 : a / 4 * 4 + a % 4 * 16 / 16 = a := by omega
    simp only [b64EncodeGroups, b64DecodeGroups]
    rw [if_pos (by omega), h1]
  | case3 a b =>
    have ha := h a (by simp)
    have hb := h b (by simp)
    have h1 : a / 4 * 4 + (a % 4 * 16 + b / 16) / 16 = a := by omega
    have h2 : (a % 4 * 16 + b / 16) % 16 * 16 + b % 16 * 4 / 4 = b := by omega
    simp only [b64EncodeGroups, b64DecodeGroups]
    rw [if_pos (by omega), h1, h2]
  | case4 a b c rest ih =>
    have ha := h a (by simp)
    have hb := h b (by simp)
    have hc := h c (by simp)
    have hrest : ∀ x ∈ rest, x < 256 := fun x hx => h x (by simp [hx])
    have h1 : a / 4 * 4 + (a % 4 * 16 + b / 16) / 16 = a := by omega
    have h2 : (a % 4 * 16 + b / 16) % 16 * 16 + (b % 16 * 4 + c / 64) / 4 = b := by omega
    have h3 : (b % 16 * 4 + c / 64) % 4 * 64 + c % 64 = c := by omega
    have hcons :
        b64EncodeGroups (a :: b :: c :: rest) =
          a / 4 :: (a % 4 * 16 + b / 16) :: (b % 16 * 4 + c / 64) :: c % 64 ::
            b64EncodeGroups rest := by
      cases rest <;> rfl
    have hne : ∀ t, b64DecodeGroups
        (a / 4 :: (a % 4 * 16 + b / 16) :: (b % 16 * 4 + c / 64) :: c % 64 :: t) =
        (b64DecodeGroups t).bind fun tail =>
          if a / 4 < 64 ∧ a % 4 * 16 + b / 16 < 64 ∧ b % 16 * 4 + c / 64 < 64 ∧ c % 64 < 64 then
            some ([a / 4 * 4 + (a % 4 * 16 + b / 16) / 16,
                   (a % 4 * 16 + b / 16) % 16 * 16 + (b % 16 * 4 + c / 64) / 4,
                   (b % 16 * 4 + c / 64) % 4 * 64 + c % 64] ++ tail)
          else none := by
      intro t
      cases t with
      | nil => rfl
      | cons x t' => cases t' <;> rfl
    rw [hcons, hne, ih hrest, Option.some_bind]
    rw [if_pos (by omega), h1, h2, h3]
    rfl

/-- base64url decoding inverts base64url encoding on byte lists. -/
theorem b64urlDecode_encode (l : List Nat) (h : ∀ x ∈ l, x < 256) :
    b64urlDecode (b64urlEncode l) = some l := by
  unfold b64urlEncode b64urlDecode
  rw [show (String.mk ((b64EncodeGroups l).map sextetChar)).data =
        (b64EncodeGroups l).map sextetChar from rfl]
  rw [sextetVals_map _ (b64EncodeGroups_lt l h), Option.some_bind]
  exact b64DecodeGroups_encode l h

/-! ### Domains, labels and the Public Suffix List -/

/-- ASCII lowercasing of one code point. -/
def lowerByte (b : Nat) : Nat := if 65 ≤ b ∧ b ≤ 90 then b + 32 else b

/-- ASCII lowercasing of a domain string, as code points. -/
def lowerBytes (s : String) : List Nat := (strBytes s).map lowerByte

/-- Split a code point list at the dots (code point 46); a trailing, leading
or doubled dot yields an empty label. -/
def splitLabels : List Nat → List (List Nat)
  | [] => [[]]
  | b :: rest =>
      let r := splitLabels rest
      if b = 46 then [] :: r
      else
        match r with
        | [] => [[b]]
        | g :: gs => (b :: g) :: gs

/-- The ASCII-lowercased labels of a domain string. -/
def domainLabels (s : String) : List (List Nat) := splitLabels (lowerBytes s)

/-- Whether the effective domain ends with the claimed RP ID, compared
ASCII-lowercased on raw code points (scenario S4 passes this stage with the
claimed RP ID `com`, and the `validate_rp_id` test passes it with the claimed
RP ID `...com` against `example...com`, so the comparison is not by whole
labels). -/
def domain_ends_with (host rp : String) : Bool :=
  (lowerBytes rp).isSuffixOf (lowerBytes host)

/-- Whether the labels of one domain are a suffix of the labels of another,
compared ASCII-lowercased; used for the registrable-domain comparison. -/
def is_registrable_suffix (rp host : String) : Bool :=
  (domainLabels rp).isSuffixOf (domainLabels host)

/-- Turn a label back into a string (all labels here are ASCII). -/
def labelToStr (l : List Nat) : String := String.mk (l.map Char.ofNat)

/-- Modelled from the spec: the minimal Public Suffix List needed by the
scenarios; the real provider embeds the full Mozilla list, which is not part
of the sources. -/
def publicSuffixes : List (List Nat) := [strBytes "com"]

/-- Modelled from the spec: the default `EffectiveTLDProvider`.  The
`effective_tld_plus_one` lookup fails on a bare public suffix, on a domain
with empty labels, and on a domain whose suffix is not registrable. -/
def default_provider (domain : String) : Option String :=
  let ls := domainLabels domain
  if ls.contains [] then none
  else
    match ls.reverse with
    | tld :: next :: _ =>
        if publicSuffixes.contains tld then some (labelToStr (next ++ 46 :: tld))
        else none
    | _ => none

/-- Modelled from the spec: a provider whose `effective_tld_plus_one` fails
for every domain, mirroring `BrokenTLDProvider` in the tests. -/
def broken_provider (_domain : String) : Option String := none

/-- CTAP2 error kinds returned by the authenticator. -/
inductive Ctap2Error
  | CredentialExcluded
  | NoCredentials
  | OperationDenied
  | UnsupportedAlgorithm
  | InvalidOption
  | MissingParameter
  | Other
deriving DecidableEq

/-- WebAuthn-level error kinds surfaced at the client boundary.  CTAP2 errors
are mapped one-to-one into the `AuthenticatorError` embedding. -/
inductive WebauthnError
  | InvalidRpId
  | OriginRpMissmatch
  | UnprotectedOrigin
  | InsecureLocalhostNotAllowed
  | AuthenticatorError (e : Ctap2Error)
deriving DecidableEq

instance {ε α : Type} [DecidableEq ε] [DecidableEq α] : DecidableEq (Except ε α) := fun x y =>
  match x, y with
  | .ok a, .ok b =>
      if h : a = b then .isTrue (congrArg Except.ok h)
      else .isFalse (fun hc => h (Except.ok.inj hc))
  | .error a, .error b =>
      if h : a = b then .isTrue (congrArg Except.error h)
      else .isFalse (fun hc => h (Except.error.inj hc))
  | .ok _, .error _ => .isFalse (fun hc => Except.noConfusion hc)
  | .error _, .ok _ => .isFalse (fun hc => Except.noConfusion hc)

/-- A parsed web origin: scheme, host, optional port.  The port plays no part
in RP ID validation, mirroring `Url::domain` which strips it. -/
structure Origin where
  scheme : String
  host : String
  port : Option Nat
deriving DecidableEq

/-- The serialization of an origin, used as the `origin` member of the
collected client data. -/
def Origin.serialize (o : Origin) : String :=
  o.scheme ++ "://" ++ o.host ++
    (match o.port with
     | none => ""
     | some p => ":" ++ toString p)

/-- Modelled from the spec: the `RpIdVerifier`, holding a pluggable PSL
provider and the insecure-localhost switch. -/
structure RpIdVerifier where
  effective_tld_plus_one : String → Option String
  insecure_localhost : Bool

/-- The verifier the client is built with by default. -/
def defaultVerifier : RpIdVerifier :=
  { effective_tld_plus_one := default_provider, insecure_localhost := false }

/-- Builder mirroring `RpIdVerifier::allows_insecure_localhost`. -/
def RpIdVerifier.allows_insecure_localhost (v : RpIdVerifier) (b : Bool) : RpIdVerifier :=
  { v with insecure_localhost := b }

/-- Modelled from the spec: `RpIdVerifier::assert_domain`, deciding whether a
caller-declared RP ID is permissible for an origin and returning the
effective RP ID.  The implementation is not among the sources, only its
tests; the label-suffix mismatch check is ordered before the scheme and
localhost gating, as fixed by scenario S7 and the `validate_rp_id` test. -/
def assert_domain (v : RpIdVerifier) (origin : Origin) (rp_id : Option String) :
    Except WebauthnError String :=
  match rp_id with
  | some rp =>
      if ¬ domain_ends_with origin.host rp then .error .OriginRpMissmatch
      else if lowerBytes origin.host = strBytes "localhost" then
        if v.insecure_localhost then .ok rp
        else .error .InsecureLocalhostNotAllowed
      else if origin.scheme ≠ "https" then .error .UnprotectedOrigin
      else
        match v.effective_tld_plus_one origin.host with
        | none => .error .InvalidRpId
        | some etld1 =>
            if is_registrable_suffix etld1 rp then .ok rp
            else .error .InvalidRpId
  | none =>
      if lowerBytes origin.host = strBytes "localhost" then
        if v.insecure_localhost then .ok "localhost"
        else .error .InsecureLocalhostNotAllowed
      else if origin.scheme ≠ "https" then .error .UnprotectedOrigin
      else .ok origin.host

/-! ### Entities and the data model -/

/-- COSE algorithm identifiers the core cares about: ES256 is mandatory,
EdDSA optional, RS256 unsupported. -/
inductive CoseAlg
  | ES256
  | EdDSA
deriving DecidableEq

/-- The algorithms supported by the reference authenticator. -/
def supported_algorithms : List CoseAlg := [.ES256, .EdDSA]

/-- WebAuthn RP entity: optional domain id and a name. -/
structure PublicKeyCredentialRpEntity where
  id : Option String
  name : String
deriving DecidableEq

/-- CTAP2 RP entity handed to the authenticator, after the client wrote the
effective RP ID back: the id is mandatory here. -/
structure Ctap2RpEntity where
  id : String
  name : String
deriving DecidableEq

/-- User entity: opaque id plus display strings. -/
structure PublicKeyCredentialUserEntity where
  id : List Nat
  display_name : String
  name : String
deriving DecidableEq

/-- CTAP2 options record for make-credential and get-assertion:
discoverability, user presence, user verification. -/
structure Options where
  rk : Bool
  up : Bool
  uv : Bool
deriving DecidableEq

/-- Modelled from the spec: the `Passkey` record of the data model.  The
type itself lives outside the sources; per section 3 it holds the credential
id, RP ID, user handle, the private key and the optional signature counter.
Key material is abstracted to an opaque Nat seed. -/
structure Passkey where
  credential_id : List Nat
  rp_id : String
  user_handle : Option (List Nat)
  private_key : Nat
  counter : Option Nat
deriving DecidableEq

/-- The COSE public key attested for a credential, opaque in this model. -/
structure CosePublicKey where
  key_id : Nat
deriving DecidableEq

/-- Model of keypair generation: the public key derived from the private
seed. -/
def derive_public_key (k : Nat) : CosePublicKey := ⟨k⟩

/-! ### User validation (from src/passkey-authenticator/src/user_validation.rs) -/

/-- Additional information that can be displayed to the user if the
authenticator has a display (the `UIHint` enum, generic over the passkey
item type like the borrowed `&P` of the source). -/
inductive UIHint (P : Type) where
  | InformExcludedCredentialFound (p : P)
  | InformNoCredentialsFound
  | RequestNewCredential (user : PublicKeyCredentialUserEntity) (rp : Ctap2RpEntity)
      (options : Options)
  | RequestExistingCredential (p : P)
deriving DecidableEq

/-- The result of a user validation check. -/
structure UserCheck where
  presence : Bool
  verification : Bool
deriving DecidableEq

/-- The pluggable user-validation capability, modelled as a deterministic
record of functions (the mocks in the test suite are deterministic). -/
structure UserValidationMethod (P : Type) where
  check_user : UIHint P → Bool → Bool → Except Ctap2Error UserCheck
  is_presence_enabled : Bool
  is_verification_enabled : Option Bool

/-- The private key material carried inside a UI hint when the passkey item
is the full `Passkey` record (as with the mock validation method of the
sources, which instantiates the item type with `Passkey`). -/
def hint_private_key (h : UIHint Passkey) : Option Nat :=
  match h with
  | .InformExcludedCredentialFound p => some p.private_key
  | .InformNoCredentialsFound => none
  | .RequestNewCredential _ _ _ => none
  | .RequestExistingCredential p => some p.private_key

/-! ### Credential store -/

/-- Modelled from the spec: the in-memory reference store is a collection of
passkey records. -/
abbrev MemoryStore := List Passkey

/-- Modelled from the spec: `find_credentials` returns the passkeys matching
the RP ID, intersected with the given credential ids when they are given. -/
def find_credentials (store : MemoryStore) (ids : Option (List (List Nat)))
    (rp_id : String) : List Passkey :=
  let byRp := store.filter (fun p => p.rp_id == rp_id)
  match ids with
  | none => byRp
  | some l => byRp.filter (fun p => l.contains p.credential_id)

/-- Modelled from the spec: `save_credential` rejects an existing
(rp_id, credential_id) pair as a protocol error. -/
def save_credential (store : MemoryStore) (pk : Passkey) :
    Except Ctap2Error MemoryStore :=
  if store.any (fun q => q.credential_id == pk.credential_id && q.rp_id == pk.rp_id) then
    .error .Other
  else .ok (store ++ [pk])

/-- Modelled from the spec: `update_credential`, used for counter bumps. -/
def update_credential (store : MemoryStore) (pk : Passkey) : MemoryStore :=
  store.map (fun q => if q.credential_id == pk.credential_id then pk else q)

/-! ### Authenticator data and CTAP2 requests -/

/-- Attested credential data: AAGUID, credential id, COSE public key. -/
structure AttestedCredentialData where
  aaguid : List Nat
  credential_id : List Nat
  public_key : CosePublicKey
deriving DecidableEq

/-- The authenticator data envelope: rpIdHash, the UP/UV flags, the signature
counter and, on registration, the attested credential data. -/
structure AuthenticatorData where
  rp_id_hash : List Nat
  up : Bool
  uv : Bool
  sign_count : Nat
  attested_credential_data : Option AttestedCredentialData
deriving DecidableEq

/-- The flags byte: UP=0x01, UV=0x04, AT=0x40. -/
def AuthenticatorData.flags (ad : AuthenticatorData) : Nat :=
  (if ad.up then 1 else 0) + (if ad.uv then 4 else 0) +
    (if ad.attested_credential_data.isSome then 64 else 0)

/-- The byte serialization of authenticator data:
rpIdHash (32) then flags (1) then signCount (4, big-endian) then the optional
attested credential data (AAGUID 16, id length u16 BE, id, COSE key). -/
def AuthenticatorData.toBytes (ad : AuthenticatorData) : List Nat :=
  ad.rp_id_hash ++ [ad.flags] ++ beBytes 4 ad.sign_count ++
    (match ad.attested_credential_data with
     | none => []
     | some acd =>
         acd.aaguid ++ beBytes 2 acd.credential_id.length ++ acd.credential_id ++
           beBytes 4 acd.public_key.key_id)

/-- A signature in the model: the signing key together with the signed
message (authenticator data bytes followed by the client data hash). -/
structure Signature where
  key : Nat
  message : List Nat
deriving DecidableEq

/-- Parameters entry of a register request: a COSE algorithm. -/
structure PublicKeyCredentialParameters where
  alg : CoseAlg
deriving DecidableEq

/-- A credential descriptor in allow or exclude lists: the credential id. -/
structure PublicKeyCredentialDescriptor where
  id : List Nat
deriving DecidableEq

/-- CTAP2 make-credential request. -/
structure MakeCredentialRequest where
  client_data_hash : List Nat
  rp : Ctap2RpEntity
  user : PublicKeyCredentialUserEntity
  pub_key_cred_params : List PublicKeyCredentialParameters
  exclude_list : List PublicKeyCredentialDescriptor
  options : Options
deriving DecidableEq

/-- CTAP2 make-credential response: the attestation object fields, with
attestation format `none` carrying an empty statement. -/
structure MakeCredentialResponse where
  fmt : String
  auth_data : AuthenticatorData
deriving DecidableEq

/-- CTAP2 get-assertion request. -/
structure GetAssertionRequest where
  rp_id : String
  client_data_hash : List Nat
  allow_list : Option (List PublicKeyCredentialDescriptor)
  options : Options
deriving DecidableEq

/-- CTAP2 get-assertion response. -/
structure GetAssertionResponse where
  credential_id : List Nat
  auth_data : AuthenticatorData
  signature : Signature
  user_handle : Option (List Nat)
deriving DecidableEq

/-- One recorded invocation of `check_user`: the hint shown and the
presence/verification requirements requested. -/
structure CheckUserCall where
  hint : UIHint Passkey
  presence : Bool
  verification : Bool
deriving DecidableEq

/-- The authenticator: AAGUID, credential store and user validation. -/
structure Authenticator where
  aaguid : List Nat
  store : MemoryStore
  uvm : UserValidationMethod Passkey

/-! ### Authenticator operations -/

/-- Modelled from the spec: algorithm selection for make-credential.  The
first supported entry wins; a request without parameters defaults to ES256;
parameters with no supported entry fail UnsupportedAlgorithm. -/
def select_algorithm (params : List PublicKeyCredentialParameters) :
    Except Ctap2Error CoseAlg :=
  if params.isEmpty then .ok .ES256
  else
    match params.find? (fun p => supported_algorithms.contains p.alg) with
    | some p => .ok p.alg
    | none => .error .UnsupportedAlgorithm

/-- The first stored passkey matching the RP ID and an entry of the exclude
list, if any. -/
def excluded_credential (store : MemoryStore) (rp_id : String)
    (exclude : List PublicKeyCredentialDescriptor) : Option Passkey :=
  (store.filter (fun p =>
    p.rp_id == rp_id && exclude.any (fun d => d.id == p.credential_id))).head?

/-- Whether a user check satisfies the requested presence and verification
requirements. -/
def check_satisfies (o : Options) (chk : UserCheck) : Bool :=
  (!o.up || chk.presence) && (!o.uv || chk.verification)

/-- Modelled from the spec: `Authenticator::make_credential`.  Randomness is
passed in explicitly: the fresh 16-byte credential id and the fresh private
key seed.  Returns the result, the updated authenticator, and the recorded
`check_user` invocations. -/
def make_credential (auth : Authenticator) (req : MakeCredentialRequest)
    (new_credential_id : List Nat) (new_private_key : Nat) :
    Except Ctap2Error MakeCredentialResponse × Authenticator × List CheckUserCall :=
  if req.rp.id = "" then (.error .MissingParameter, auth, [])
  else
    match select_algorithm req.pub_key_cred_params with
    | .error e => (.error e, auth, [])
    | .ok _alg =>
      match excluded_credential auth.store req.rp.id req.exclude_list with
      | some p =>
          let _ := auth.uvm.check_user (.InformExcludedCredentialFound p)
            req.options.up req.options.uv
          (.error .CredentialExcluded, auth,
            [⟨.InformExcludedCredentialFound p, req.options.up, req.options.uv⟩])
      | none =>
        if req.options.uv && !(auth.uvm.is_verification_enabled == some true) then
          (.error .InvalidOption, auth, [])
        else
          let hint : UIHint Passkey := .RequestNewCredential req.user req.rp req.options
          let calls := [⟨hint, req.options.up, req.options.uv⟩]
          match auth.uvm.check_user hint req.options.up req.options.uv with
          | .error e => (.error e, auth, calls)
          | .ok chk =>
            if !check_satisfies req.options chk then
              (.error .OperationDenied, auth, calls)
            else
              let pk : Passkey :=
                { credential_id := new_credential_id
                  rp_id := req.rp.id
                  user_handle := some req.user.id
                  private_key := new_private_key
                  counter := none }
              match save_credential auth.store pk with
              | .error e => (.error e, auth, calls)
              | .ok store' =>
                  let ad : AuthenticatorData :=
                    { rp_id_hash := sha256Str req.rp.id
                      up := chk.presence
                      uv := chk.verification
                      sign_count := 0
                      attested_credential_data :=
                        some ⟨auth.aaguid, new_credential_id,
                              derive_public_key new_private_key⟩ }
                  (.ok ⟨"none", ad⟩, { auth with store := store' }, calls)

/-- Modelled from the spec: `Authenticator::get_assertion`. -/
def get_assertion (auth : Authenticator) (req : GetAssertionRequest) :
    Except Ctap2Error GetAssertionResponse × Authenticator × List CheckUserCall :=
  if req.options.uv && !(auth.uvm.is_verification_enabled == some true) then
    (.error .InvalidOption, auth, [])
  else
    let ids : Option (List (List Nat)) :=
      match req.allow_list with
      | some l => if l.isEmpty then none else some (l.map (·.id))
      | none => none
    match find_credentials auth.store ids req.rp_id with
    | [] =>
        let _ := auth.uvm.check_user .InformNoCredentialsFound
          req.options.up req.options.uv
        (.error .NoCredentials, auth,
          [⟨.InformNoCredentialsFound, req.options.up, req.options.uv⟩])
    | p :: rest =>
        let calls := [(⟨.RequestExistingCredential p, req.options.up, req.options.uv⟩ : CheckUserCall)]
        match auth.uvm.check_user (.RequestExistingCredential p)
            req.options.up req.options.uv with
        | .error e => (.error e, auth, calls)
        | .ok chk =>
          if !check_satisfies req.options chk then
            (.error .OperationDenied, auth, calls)
          else
            let counter' := p.counter.map (· + 1)
            let p' := { p with counter := counter' }
            let store' := update_credential auth.store p'
            let ad : AuthenticatorData :=
              { rp_id_hash := sha256Str req.rp_id
                up := chk.presence
                uv := chk.verification
                sign_count := counter'.getD 0
                attested_credential_data := none }
            let sig : Signature := ⟨p.private_key, ad.toBytes ++ req.client_data_hash⟩
            let uh := if ids = none ∧ rest ≠ [] then p.user_handle else none
            (.ok ⟨p.credential_id, ad, sig, uh⟩, { auth with store := store' }, calls)

/-! ### The client -/

/-- The user-verification requirement of a WebAuthn request. -/
inductive UserVerificationRequirement
  | Required
  | Preferred
  | Discouraged
deriving DecidableEq

/-- Authenticator selection criteria; only the user-verification member is
modelled, the rest has no behavioural effect within the core. -/
structure AuthenticatorSelectionCriteria where
  user_verification : UserVerificationRequirement
deriving DecidableEq

/-- WebAuthn credential creation options. -/
structure PublicKeyCredentialCreationOptions where
  rp : PublicKeyCredentialRpEntity
  user : PublicKeyCredentialUserEntity
  challenge : List Nat
  pub_key_cred_params : List PublicKeyCredentialParameters
  exclude_credentials : List PublicKeyCredentialDescriptor
  authenticator_selection : Option AuthenticatorSelectionCriteria
deriving DecidableEq

/-- WebAuthn credential request options. -/
structure PublicKeyCredentialRequestOptions where
  challenge : List Nat
  rp_id : Option String
  allow_credentials : Option (List PublicKeyCredentialDescriptor)
  user_verification : UserVerificationRequirement
deriving DecidableEq

/-- The JSON serialization of the collected client data, keys in insertion
order: type, challenge (base64url, no padding), origin, crossOrigin, then
the extra client data fields spliced in verbatim. -/
def collected_client_data_json (ty : String) (challenge : List Nat)
    (origin : Origin) (extra : Option String) : String :=
  "\x7b\"type\":\"" ++ ty ++ "\",\"challenge\":\"" ++ b64urlEncode challenge ++
    "\",\"origin\":\"" ++ origin.serialize ++ "\",\"crossOrigin\":false" ++
    (match extra with
     | none => ""
     | some e => "," ++ e) ++ "\x7d"

/-- The CTAP2 uv option chosen from the requested user-verification policy:
Required always asks for uv, Discouraged never does, Preferred asks exactly
when the validation method is capable and configured. -/
def uv_policy (req : UserVerificationRequirement) (enabled : Option Bool) : Bool :=
  match req with
  | .Required => true
  | .Discouraged => false
  | .Preferred => enabled == some true

/-- The response envelope of a successful registration. -/
structure CreatedPublicKeyCredential where
  raw_id : List Nat
  id : String
  client_data_json : String
  attestation_object : MakeCredentialResponse
  authenticator_data : AuthenticatorData
deriving DecidableEq

/-- The response envelope of a successful assertion. -/
structure AssertedPublicKeyCredential where
  raw_id : List Nat
  client_data_json : String
  authenticator_data : AuthenticatorData
  signature : Signature
  user_handle : Option (List Nat)
deriving DecidableEq

/-- Modelled from the spec: `Client::register`.  Asserts the RP ID against
the origin, builds and hashes the collected client data, chooses the uv
option, always requests up, drives make-credential and wraps the response.
Fresh randomness (credential id, key seed) is passed in explicitly. -/
def client_register (auth : Authenticator) (v : RpIdVerifier) (origin : Origin)
    (opts : PublicKeyCredentialCreationOptions) (extra_client_data : Option String)
    (new_credential_id : List Nat) (new_private_key : Nat) :
    Except WebauthnError CreatedPublicKeyCredential × Authenticator × List CheckUserCall :=
  match assert_domain v origin opts.rp.id with
  | .error e => (.error e, auth, [])
  | .ok rp_id =>
    let cdj := collected_client_data_json "webauthn.create" opts.challenge origin
      extra_client_data
    let uvReq := (opts.authenticator_selection.map
      (·.user_verification)).getD .Preferred
    let req : MakeCredentialRequest :=
      { client_data_hash := sha256 (strBytes cdj)
        rp := ⟨rp_id, opts.rp.name⟩
        user := opts.user
        pub_key_cred_params := opts.pub_key_cred_params
        exclude_list := opts.exclude_credentials
        options :=
          { rk := true
            up := true
            uv := uv_policy uvReq auth.uvm.is_verification_enabled } }
    match make_credential auth req new_credential_id new_private_key with
    | (.error e, auth', calls) => (.error (.AuthenticatorError e), auth', calls)
    | (.ok resp, auth', calls) =>
        (.ok { raw_id := new_credential_id
               id := b64urlEncode new_credential_id
               client_data_json := b64urlEncode (strBytes cdj)
               attestation_object := resp
               authenticator_data := resp.auth_data },
         auth', calls)

/-- Modelled from the spec: `Client::authenticate`, symmetric to register
with client data type `webauthn.get`. -/
def client_authenticate (auth : Authenticator) (v : RpIdVerifier) (origin : Origin)
    (opts : PublicKeyCredentialRequestOptions) (extra_client_data : Option String) :
    Except WebauthnError AssertedPublicKeyCredential × Authenticator × List CheckUserCall :=
  match assert_domain v origin opts.rp_id with
  | .error e => (.error e, auth, [])
  | .ok rp_id =>
    let cdj := collected_client_data_json "webauthn.get" opts.challenge origin
      extra_client_data
    let req : GetAssertionRequest :=
      { rp_id := rp_id
        client_data_hash := sha256 (strBytes cdj)
        allow_list := opts.allow_credentials
        options :=
          { rk := false
            up := true
            uv := uv_policy opts.user_verification auth.uvm.is_verification_enabled } }
    match get_assertion auth req with
    | (.error e, auth', calls) => (.error (.AuthenticatorError e), auth', calls)
    | (.ok resp, auth', calls) =>
        (.ok { raw_id := resp.credential_id
               client_data_json := b64urlEncode (strBytes cdj)
               authenticator_data := resp.auth_data
               signature := resp.signature
               user_handle := resp.user_handle },
         auth', calls)

/-! ### Test scenario embeddings (from src/passkey-client/src/tests/mod.rs) -/

/-- The validation mock of `uv_mock_with_creation`: presence and verification
always succeed, verification is enabled and configured. -/
def uv_mock : UserValidationMethod Passkey :=
  { check_user := fun _ _ _ => .ok ⟨true, true⟩
    is_presence_enabled := true
    is_verification_enabled := some true }

/-- The validation mock of `user_mock_without_uv`: presence is gathered but
verification is reported false, while the device claims uv capability. -/
def user_mock_without_uv : UserValidationMethod Passkey :=
  { check_user := fun _ _ _ => .ok ⟨true, false⟩
    is_presence_enabled := true
    is_verification_enabled := some true }

/-- An all-zero AAGUID, as `Aaguid::new_empty`. -/
def empty_aaguid : List Nat := List.replicate 16 0

/-- A fresh authenticator over an empty store, as built in every test. -/
def test_authenticator (u : UserValidationMethod Passkey) : Authenticator :=
  ⟨empty_aaguid, [], u⟩

/-- Stand-ins for the random vectors drawn by the tests. -/
def demo_user_id : List Nat := List.range 16

/-- A concrete 32-byte challenge for registration. -/
def demo_challenge : List Nat := List.range 32

/-- A distinct 32-byte challenge for the assertion. -/
def demo_challenge2 : List Nat := (List.range 32).map (· + 32)

/-- The fresh credential id the authenticator would draw. -/
def demo_credential_id : List Nat := (List.range 16).map (· + 100)

/-- The fresh private key seed the authenticator would draw. -/
def demo_private_key : Nat := 2024

/-- The creation options of `good_credential_creation_options`. -/
def good_credential_creation_options : PublicKeyCredentialCreationOptions :=
  { rp := ⟨some "future.1password.com", "future.1password.com"⟩
    user := ⟨demo_user_id, "wendy", "wendy"⟩
    challenge := demo_challenge
    pub_key_cred_params := [⟨.ES256⟩]
    exclude_credentials := []
    authenticator_selection := none }

/-- The request options of `good_credential_request_options`. -/
def good_credential_request_options (credential_id : List Nat) :
    PublicKeyCredentialRequestOptions :=
  { challenge := demo_challenge2
    rp_id := some "future.1password.com"
    allow_credentials := some [⟨credential_id⟩]
    user_verification := .Preferred }

/-- The origin of the basic round-trip scenario. -/
def origin_1p : Origin := ⟨"https", "future.1password.com", none⟩

/-- The subdomain origin of scenarios S2 and S3. -/
def origin_www : Origin := ⟨"https", "www.future.1password.com", none⟩

/-- The register leg of the round-trip scenario S1. -/
def s1_register :
    Except WebauthnError CreatedPublicKeyCredential × Authenticator × List CheckUserCall :=
  client_register (test_authenticator uv_mock) defaultVerifier origin_1p
    good_credential_creation_options none demo_credential_id demo_private_key

/-- The authenticate leg of the round-trip scenario S1, run against the state
left by the register leg, with the allow list holding exactly the returned
raw credential id. -/
def s1_authenticate :
    Except WebauthnError AssertedPublicKeyCredential × Authenticator × List CheckUserCall :=
  match s1_register with
  | (.ok cred, auth', _) =>
      client_authenticate auth' defaultVerifier origin_1p
        (good_credential_request_options cred.raw_id) none
  | (.error e, auth', _) => (.error e, auth', [])

/-! ### General lemmas about the operations -/

/-- Every successful make-credential bears the SHA-256 of the RP ID it was
asked for as its rpIdHash. -/
theorem make_credential_rp_id_hash (auth : Authenticator) (req : MakeCredentialRequest)
    (cid : List Nat) (pk : Nat) (resp : MakeCredentialResponse)
    (h : (make_credential auth req cid pk).1 = .ok resp) :
    resp.auth_data.rp_id_hash = sha256Str req.rp.id := by
  unfold make_credential at h
  dsimp only at h
  repeat' split at h
  all_goals try (simp at h)
  all_goals (subst h; rfl)

/-- Every successful get-assertion bears the SHA-256 of the RP ID it was
asked for as its rpIdHash. -/
theorem get_assertion_rp_id_hash (auth : Authenticator) (req : GetAssertionRequest)
    (resp : GetAssertionResponse)
    (h : (get_assertion auth req).1 = .ok resp) :
    resp.auth_data.rp_id_hash = sha256Str req.rp_id := by
  unfold get_assertion at h
  dsimp only at h
  repeat' split at h
  all_goals try (simp at h)
  all_goals (subst h; rfl)

/-- Every check-user invocation recorded by make-credential requests exactly
the presence and verification the options asked for. -/
theorem make_credential_calls_options (auth : Authenticator) (req : MakeCredentialRequest)
    (cid : List Nat) (pk : Nat) (c : CheckUserCall)
    (hc : c ∈ (make_credential auth req cid pk).2.2) :
    c.presence = req.options.up ∧ c.verification = req.options.uv := by
  unfold make_credential at hc
  dsimp only at hc
  repeat' split at hc
  all_goals simp at hc
  all_goals (subst hc; exact ⟨rfl, rfl⟩)

/-- Every check-user invocation recorded by get-assertion requests exactly
the presence and verification the options asked for. -/
theorem get_assertion_calls_options (auth : Authenticator) (req : GetAssertionRequest)
    (c : CheckUserCall)
    (hc : c ∈ (get_assertion auth req).2.2) :
    c.presence = req.options.up ∧ c.verification = req.options.uv := by
  unfold get_assertion at hc
  dsimp only at hc
  repeat' split at hc
  all_goals simp at hc
  all_goals (subst hc; exact ⟨rfl, rfl⟩)

/-- A successful make-credential with an empty exclude list performed exactly
one check-user invocation. -/
theorem make_credential_one_call (auth : Authenticator) (req : MakeCredentialRequest)
    (cid : List Nat) (pk : Nat)
    (_hex : req.exclude_list = []) :
    ((make_credential auth req cid pk).1).isOk = true →
    (make_credential auth req cid pk).2.2.length = 1 := by
  unfold make_credential
  dsimp only
  repeat' split
  all_goals intro h
  all_goals try (simp [Except.isOk, Except.toBool] at h)
  all_goals rfl

/-- The register leg of scenario S2: subdomain origin, claimed RP ID. -/
def s2_register :
    Except WebauthnError CreatedPublicKeyCredential × Authenticator × List CheckUserCall :=
  client_register (test_authenticator uv_mock) defaultVerifier origin_www
    good_credential_creation_options none demo_credential_id demo_private_key

/-- The authenticate leg of scenario S2. -/
def s2_authenticate :
    Except WebauthnError AssertedPublicKeyCredential × Authenticator × List CheckUserCall :=
  match s2_register with
  | (.ok cred, auth', _) =>
      client_authenticate auth' defaultVerifier origin_www
        (good_credential_request_options cred.raw_id) none
  | (.error e, auth', _) => (.error e, auth', [])

/-- A junk credential used as fallback when extracting from a response that
is known to be successful. -/
def junk_credential : CreatedPublicKeyCredential :=
  ⟨[], "", "", ⟨"", ⟨[], false, false, 0, none⟩⟩, ⟨[], false, false, 0, none⟩⟩

/-- The successful response of the S1 register leg. -/
def s1_out : CreatedPublicKeyCredential :=
  match s1_register.1 with
  | .ok c => c
  | .error _ => junk_credential

/-- The successful response of the S2 register leg. -/
def s2_out : CreatedPublicKeyCredential :=
  match s2_register.1 with
  | .ok c => c
  | .error _ => junk_credential

/-- The creation options of scenario S3: the RP ID is omitted. -/
def s3_creation_options : PublicKeyCredentialCreationOptions :=
  { good_credential_creation_options with rp := ⟨none, "future.1password.com"⟩ }

/-- The register leg of scenario S3: subdomain origin, no claimed RP ID. -/
def s3_register :
    Except WebauthnError CreatedPublicKeyCredential × Authenticator × List CheckUserCall :=
  client_register (test_authenticator uv_mock) defaultVerifier origin_www
    s3_creation_options none demo_credential_id demo_private_key

/-- The authenticate leg of scenario S3, again without a claimed RP ID. -/
def s3_authenticate :
    Except WebauthnError AssertedPublicKeyCredential × Authenticator × List CheckUserCall :=
  match s3_register with
  | (.ok cred, auth', _) =>
      client_authenticate auth' defaultVerifier origin_www
        { good_credential_request_options cred.raw_id with rp_id := none } none
  | (.error e, auth', _) => (.error e, auth', [])

/-- The creation options of scenario S8: empty pub-key-cred-params. -/
def s8_creation_options : PublicKeyCredentialCreationOptions :=
  { good_credential_creation_options with pub_key_cred_params := [] }

/-- The register leg of scenario S8. -/
def s8_register :
    Except WebauthnError CreatedPublicKeyCredential × Authenticator × List CheckUserCall :=
  client_register (test_authenticator uv_mock) defaultVerifier origin_1p
    s8_creation_options none demo_credential_id demo_private_key

/-- The authenticate leg of scenario S8. -/
def s8_authenticate :
    Except WebauthnError AssertedPublicKeyCredential × Authenticator × List CheckUserCall :=
  match s8_register with
  | (.ok cred, auth', _) =>
      client_authenticate auth' defaultVerifier origin_1p
        (good_credential_request_options cred.raw_id) none
  | (.error e, auth', _) => (.error e, auth', [])

/-- The scenario of `client_register_triggers_uv_when_uv_is_required`. -/
def uv_required_register :
    Except WebauthnError CreatedPublicKeyCredential × Authenticator × List CheckUserCall :=
  client_register (test_authenticator uv_mock) defaultVerifier origin_1p
    { good_credential_creation_options with
        authenticator_selection := some ⟨.Required⟩ }
    none demo_credential_id demo_private_key

/-- The scenario of `client_register_does_not_trigger_uv_when_uv_is_discouraged`:
the user-validation mock reports verification false. -/
def uv_discouraged_register :
    Except WebauthnError CreatedPublicKeyCredential × Authenticator × List CheckUserCall :=
  client_register (test_authenticator user_mock_without_uv) defaultVerifier origin_1p
    { good_credential_creation_options with
        authenticator_selection := some ⟨.Discouraged⟩ }
    none demo_credential_id demo_private_key

/-- The register leg of scenario S9, with extra client data. -/
def c9_register (e : String) :
    Except WebauthnError CreatedPublicKeyCredential × Authenticator × List CheckUserCall :=
  client_register (test_authenticator uv_mock) defaultVerifier origin_1p
    good_credential_creation_options (some e) demo_credential_id demo_private_key

/-- The authenticate leg of scenario S9, with the same extra client data. -/
def c9_authenticate (e : String) :
    Except WebauthnError AssertedPublicKeyCredential × Authenticator × List CheckUserCall :=
  match c9_register e with
  | (.ok cred, auth', _) =>
      client_authenticate auth' defaultVerifier origin_1p
        (good_credential_request_options cred.raw_id) (some e)
  | (.error e', auth', _) => (.error e', auth', [])

/-- The extra client data fragment of scenario S9, an android package
name member. -/
def android_extra : String := "\"android_package_name\":\"com.example.app\""

/-- The non-https localhost origin of scenarios S6 and S7. -/
def localhost_origin : Origin := ⟨"http", "localhost", some 8080⟩

/-- The verifier built over the always-failing PSL provider. -/
def broken_verifier : RpIdVerifier := ⟨broken_provider, false⟩

/-- The collected client data JSON of the S9 register leg. -/
def c9_cdj_create (e : String) : String :=
  collected_client_data_json "webauthn.create" demo_challenge origin_1p (some e)

/-- The collected client data JSON of the S9 authenticate leg. -/
def c9_cdj_get (e : String) : String :=
  collected_client_data_json "webauthn.get" demo_challenge2 origin_1p (some e)

/-- The authenticator data produced by the S9 register leg. -/
def c9_mk_auth_data : AuthenticatorData :=
  { rp_id_hash := sha256Str "future.1password.com"
    up := true
    uv := true
    sign_count := 0
    attested_credential_data :=
      some ⟨empty_aaguid, demo_credential_id, derive_public_key demo_private_key⟩ }

/-- The authenticator data produced by the S9 authenticate leg. -/
def c9_get_auth_data : AuthenticatorData :=
  { rp_id_hash := sha256Str "future.1password.com"
    up := true
    uv := true
    sign_count := 0
    attested_credential_data := none }

/-- A sample passkey record for the UI-hint analysis. -/
def example_passkey : Passkey :=
  { credential_id := [1, 2, 3, 4]
    rp_id := "future.1password.com"
    user_handle := some [9]
    private_key := 7
    counter := none }

/-- A successful get-assertion performed exactly one check-user
invocation. -/
theorem get_assertion_one_call (auth : Authenticator) (req : GetAssertionRequest) :
    ((get_assertion auth req).1).isOk = true →
    (get_assertion auth req).2.2.length = 1 := by
  unfold get_assertion
  dsimp only
  repeat' split
  all_goals intro h
  all_goals try (simp [Except.isOk, Except.toBool] at h)
  all_goals rfl

/-- Transport of a call-list membership along an equation on the result
triple of an operation. -/
theorem mem_calls_of_eq {α : Type} {r : α × Authenticator × List CheckUserCall}
    {x : α} {a : Authenticator} {cs : List CheckUserCall}
    (h : r = (x, a, cs)) {c : CheckUserCall} (hc : c ∈ cs) : c ∈ r.2.2 := by
  rw [h]; exact hc

/-- The client always requests user presence: every check-user invocation a
register ceremony records asks for presence. -/
theorem client_register_calls_up (auth : Authenticator) (v : RpIdVerifier)
    (origin : Origin) (opts : PublicKeyCredentialCreationOptions)
    (ex : Option String) (cid : List Nat) (pk : Nat) (c : CheckUserCall) :
    c ∈ (client_register auth v origin opts ex cid pk).2.2 → c.presence = true := by
  suffices h : ∀ t, client_register auth v origin opts ex cid pk = t →
      (c ∈ t.2.2 → c.presence = true) from h _ rfl
  intro t hcr hc
  unfold client_register at hcr
  dsimp only at hcr
  split at hcr
  · rw [← hcr] at hc; simp at hc
  · split at hcr <;> rename_i heq2 <;>
    · rw [← hcr] at hc
      exact (make_credential_calls_options auth _ cid pk c
        (mem_calls_of_eq heq2 hc)).1

/-- The client always requests user presence: every check-user invocation an
authenticate ceremony records asks for presence. -/
theorem client_authenticate_calls_up (auth : Authenticator) (v : RpIdVerifier)
    (origin : Origin) (opts : PublicKeyCredentialRequestOptions)
    (ex : Option String) (c : CheckUserCall) :
    c ∈ (client_authenticate auth v origin opts ex).2.2 → c.presence = true := by
  suffices h : ∀ t, client_authenticate auth v origin opts ex = t →
      (c ∈ t.2.2 → c.presence = true) from h _ rfl
  intro t hcr hc
  unfold client_authenticate at hcr
  dsimp only at hcr
  split at hcr
  · rw [← hcr] at hc; simp at hc
  · split at hcr <;> rename_i heq2 <;>
    · rw [← hcr] at hc
      exact (get_assertion_calls_options auth _ c (mem_calls_of_eq heq2 hc)).1

/-- A successful register ceremony with an empty exclude list records
exactly one check-user invocation. -/
theorem client_register_one_call (auth : Authenticator) (v : RpIdVerifier)
    (origin : Origin) (opts : PublicKeyCredentialCreationOptions)
    (ex : Option String) (cid : List Nat) (pk : Nat)
    (hex : opts.exclude_credentials = []) :
    ((client_register auth v origin opts ex cid pk).1).isOk = true →
    (client_register auth v origin opts ex cid pk).2.2.length = 1 := by
  suffices h : ∀ t, client_register auth v origin opts ex cid pk = t →
      (t.1.isOk = true → t.2.2.length = 1) from h _ rfl
  intro t hcr hok
  unfold client_register at hcr
  dsimp only at hcr
  split at hcr
  · rw [← hcr] at hok; simp [Except.isOk, Except.toBool] at hok
  · split at hcr <;> rename_i heq2
    · rw [← hcr] at hok; simp [Except.isOk, Except.toBool] at hok
    · rw [← hcr]
      have h2 := make_credential_one_call auth _ cid pk hex
        (congrArg (fun p => (p.1).isOk) heq2)
      rw [heq2] at h2
      exact h2

/-- A successful authenticate ceremony records exactly one check-user
invocation. -/
theorem client_authenticate_one_call (auth : Authenticator) (v : RpIdVerifier)
    (origin : Origin) (opts : PublicKeyCredentialRequestOptions)
    (ex : Option String) :
    ((client_authenticate auth v origin opts ex).1).isOk = true →
    (client_authenticate auth v origin opts ex).2.2.length = 1 := by
  suffices h : ∀ t, client_authenticate auth v origin opts ex = t →
      (t.1.isOk = true → t.2.2.length = 1) from h _ rfl
  intro t hcr hok
  unfold client_authenticate at hcr
  dsimp only at hcr
  split at hcr
  · rw [← hcr] at hok; simp [Except.isOk, Except.toBool] at hok
  · split at hcr <;> rename_i heq2
    · rw [← hcr] at hok; simp [Except.isOk, Except.toBool] at hok
    · rw [← hcr]
      have h2 := get_assertion_one_call auth _
        (congrArg (fun p => (p.1).isOk) heq2)
      rw [heq2] at h2
      exact h2

/-! ### Claim theorems -/

set_option maxRecDepth 100000

set_option maxHeartbeats 4000000

/-- C1: at origin https://future.1password.com with claimed RP ID
future.1password.com, registering with ES256 under a user-validation method
that reports presence and verification succeeds, and a subsequent
authenticate ceremony at the same origin whose allow list holds exactly the
returned raw credential id succeeds as well. -/
theorem c1_register_then_authenticate_round_trip :
    s1_register.1.isOk = true ∧ s1_authenticate.1.isOk = true := by
  decide

/-- C4 counterexample: the claim that no UI hint carries the credential
private key fails at a concrete input: a RequestExistingCredential hint over
a full Passkey record carries its private_key field. -/
theorem c4_counterexample_hint_carries_private_key :
    hint_private_key (UIHint.RequestExistingCredential example_passkey) ≠ none := by
  decide

/-- C4 (amended): the RequestNewCredential and InformNoCredentialsFound
hints carry only RP and User entities or nothing and never a private key,
while the InformExcludedCredentialFound and RequestExistingCredential hints
carry a non-owning view of the full passkey record, exposing exactly its
private_key field. -/
theorem c4_hint_private_key_exposure :
    (∀ u r o, hint_private_key (UIHint.RequestNewCredential u r o) = none) ∧
    hint_private_key (UIHint.InformNoCredentialsFound : UIHint Passkey) = none ∧
    (∀ p, hint_private_key (UIHint.InformExcludedCredentialFound p) = some p.private_key) ∧
    (∀ p, hint_private_key (UIHint.RequestExistingCredential p) = some p.private_key) :=
  ⟨fun _ _ _ => rfl, rfl, fun _ => rfl, fun _ => rfl⟩

/-- C5: assert_domain fails InvalidRpId when the claimed RP ID is a public
suffix (https://example.com with `com`), when the domain has empty labels
(https://example...com with `...com`), and when the PSL provider fails even
for an otherwise legitimate pair. -/
theorem c5_invalid_rp_id_cases :
    assert_domain defaultVerifier ⟨"https", "example.com", none⟩ (some "com") =
      .error .InvalidRpId ∧
    assert_domain defaultVerifier ⟨"https", "example...com", none⟩ (some "...com") =
      .error .InvalidRpId ∧
    assert_domain broken_verifier origin_www (some "future.1password.com") =
      .error .InvalidRpId := by
  decide

/-- C6: a non-https origin away from localhost fails UnprotectedOrigin
(whenever the RP ID is absent or matches the host, so that the mismatch
check does not fire first); http://localhost:8080 with insecure localhost
disabled fails InsecureLocalhostNotAllowed with or without a claimed RP ID;
with it enabled both forms succeed with rp_id localhost, the port
stripped. -/
theorem c6_localhost_and_unprotected_origin :
    (∀ (v : RpIdVerifier) (origin : Origin) (rp_id : Option String),
        origin.scheme = "http" →
        lowerBytes origin.host ≠ strBytes "localhost" →
        (rp_id = none ∨ ∃ r, rp_id = some r ∧ domain_ends_with origin.host r = true) →
        assert_domain v origin rp_id = .error .UnprotectedOrigin) ∧
    assert_domain defaultVerifier localhost_origin (some "localhost") =
      .error .InsecureLocalhostNotAllowed ∧
    assert_domain defaultVerifier localhost_origin none =
      .error .InsecureLocalhostNotAllowed ∧
    assert_domain (defaultVerifier.allows_insecure_localhost true) localhost_origin
      (some "localhost") = .ok "localhost" ∧
    assert_domain (defaultVerifier.allows_insecure_localhost true) localhost_origin
      none = .ok "localhost" := by
  refine ⟨?_, by decide, by decide, by decide, by decide⟩
  intro v origin rp_id h1 h2 h3
  have hs : origin.scheme ≠ "https" := by rw [h1]; decide
  rcases h3 with rfl | ⟨r, rfl, hr⟩
  · unfold assert_domain
    dsimp only
    rw [if_neg h2, if_pos hs]
  · unfold assert_domain
    dsimp only
    have hnn : ¬ ¬ domain_ends_with origin.host r = true := by simp [hr]
    rw [if_neg hnn, if_neg h2, if_pos hs]

/-- C6 witness: the general UnprotectedOrigin law applied at
http://example.com with claimed RP ID example.com. -/
theorem c6_localhost_and_unprotected_origin_witness :
    assert_domain defaultVerifier ⟨"http", "example.com", none⟩ (some "example.com") =
      .error .UnprotectedOrigin :=
  c6_localhost_and_unprotected_origin.1 defaultVerifier ⟨"http", "example.com", none⟩
    (some "example.com") rfl (by decide) (Or.inr ⟨"example.com", rfl, by decide⟩)

/-- C7: at origin http://localhost:8080 with claimed RP ID example.com and
insecure localhost disabled, assert_domain reports the origin/RP mismatch,
taking precedence over the scheme and localhost gating. -/
theorem c7_mismatch_takes_precedence :
    assert_domain defaultVerifier localhost_origin (some "example.com") =
      .error .OriginRpMissmatch := by
  decide

/-- C8: an empty pub-key-cred-params list does not fail
UnsupportedAlgorithm: the authenticator defaults to ES256, registration
succeeds and the credential authenticates afterwards. -/
theorem c8_empty_params_defaults_to_es256 :
    select_algorithm [] = .ok .ES256 ∧
    s8_register.1.isOk = true ∧ s8_authenticate.1.isOk = true := by
  decide

/-- C2: every successful register response carries in both the attestation
object and the response authenticator data, and every successful assertion
carries in its authenticator data, the SHA-256 of the effective RP ID
returned by assert_domain; concretely, at origin
https://www.future.1password.com the hash is that of future.1password.com
when that RP ID is claimed and that of www.future.1password.com when the RP
ID is omitted, in both ceremonies. -/
theorem c2_rp_id_hash_is_sha256_of_effective_rp_id :
    (∀ (auth : Authenticator) (v : RpIdVerifier) (origin : Origin)
        (opts : PublicKeyCredentialCreationOptions) (ex : Option String)
        (cid : List Nat) (pk : Nat) (out : CreatedPublicKeyCredential),
        (client_register auth v origin opts ex cid pk).1 = .ok out →
        ∃ rp, assert_domain v origin opts.rp.id = .ok rp ∧
          out.attestation_object.auth_data.rp_id_hash = sha256Str rp ∧
          out.authenticator_data.rp_id_hash = sha256Str rp) ∧
    (∀ (auth : Authenticator) (v : RpIdVerifier) (origin : Origin)
        (opts : PublicKeyCredentialRequestOptions) (ex : Option String)
        (out : AssertedPublicKeyCredential),
        (client_authenticate auth v origin opts ex).1 = .ok out →
        ∃ rp, assert_domain v origin opts.rp_id = .ok rp ∧
          out.authenticator_data.rp_id_hash = sha256Str rp) ∧
    (s2_register.1.toOption.map fun c => c.attestation_object.auth_data.rp_id_hash) =
      some (sha256Str "future.1password.com") ∧
    (s2_authenticate.1.toOption.map fun c => c.authenticator_data.rp_id_hash) =
      some (sha256Str "future.1password.com") ∧
    (s3_register.1.toOption.map fun c => c.attestation_object.auth_data.rp_id_hash) =
      some (sha256Str "www.future.1password.com") ∧
    (s3_authenticate.1.toOption.map fun c => c.authenticator_data.rp_id_hash) =
      some (sha256Str "www.future.1password.com") := by
  refine ⟨?_, ?_, by decide, by decide, by decide, by decide⟩
  · intro auth v origin opts ex cid pk out h
    unfold client_register at h
    dsimp only at h
    split at h
    · simp at h
    · rename_i rp heq
      split at h
      · simp at h
      · rename_i resp auth' calls heq2
        simp only [Except.ok.injEq] at h
        subst h
        have h3 := make_credential_rp_id_hash auth _ cid pk resp
          (congrArg Prod.fst heq2)
        exact ⟨rp, heq, h3, h3⟩
  · intro auth v origin opts ex out h
    unfold client_authenticate at h
    dsimp only at h
    split at h
    · simp at h
    · rename_i rp heq
      split at h
      · simp at h
      · rename_i resp auth' calls heq2
        simp only [Except.ok.injEq] at h
        subst h
        have h3 := get_assertion_rp_id_hash auth _ resp (congrArg Prod.fst heq2)
        exact ⟨rp, heq, h3⟩

/-- C2 witness: the register law applied to the concrete S2 scenario. -/
theorem c2_rp_id_hash_is_sha256_of_effective_rp_id_witness :
    ∃ rp, assert_domain defaultVerifier origin_www
        good_credential_creation_options.rp.id = .ok rp ∧
      s2_out.attestation_object.auth_data.rp_id_hash = sha256Str rp ∧
      s2_out.authenticator_data.rp_id_hash = sha256Str rp :=
  c2_rp_id_hash_is_sha256_of_effective_rp_id.1 (test_authenticator uv_mock)
    defaultVerifier origin_www good_credential_creation_options none
    demo_credential_id demo_private_key s2_out (by decide)

/-- C3: the client translates the user-verification policy into the CTAP2 uv
option with Required mapping to uv true and Discouraged to uv false whatever
the device reports, always requests up, and concretely a Required register
against a verifying method invokes check_user once asking presence and
verification and succeeds, while a Discouraged register succeeds even though
check_user reports verification false. -/
theorem c3_uv_policy_translation :
    (∀ en, uv_policy .Required en = true) ∧
    (∀ en, uv_policy .Discouraged en = false) ∧
    (∀ (auth : Authenticator) (v : RpIdVerifier) (origin : Origin)
        (opts : PublicKeyCredentialCreationOptions) (ex : Option String)
        (cid : List Nat) (pk : Nat) (c : CheckUserCall),
        c ∈ (client_register auth v origin opts ex cid pk).2.2 → c.presence = true) ∧
    (∀ (auth : Authenticator) (v : RpIdVerifier) (origin : Origin)
        (opts : PublicKeyCredentialRequestOptions) (ex : Option String)
        (c : CheckUserCall),
        c ∈ (client_authenticate auth v origin opts ex).2.2 → c.presence = true) ∧
    (uv_required_register.1.isOk = true ∧
      uv_required_register.2.2.map (fun c => (c.presence, c.verification)) =
        [(true, true)]) ∧
    uv_discouraged_register.1.isOk = true := by
  exact ⟨fun _ => rfl, fun _ => rfl, client_register_calls_up,
    client_authenticate_calls_up, by decide, by decide⟩

/-- C3 witness: the always-up law applied to the concrete Required
scenario call. -/
theorem c3_uv_policy_translation_witness :
    (⟨UIHint.RequestNewCredential ⟨demo_user_id, "wendy", "wendy"⟩
        ⟨"future.1password.com", "future.1password.com"⟩ ⟨true, true, true⟩,
      true, true⟩ : CheckUserCall).presence = true :=
  c3_uv_policy_translation.2.2.1 (test_authenticator uv_mock) defaultVerifier
    origin_1p
    { good_credential_creation_options with
        authenticator_selection := some ⟨.Required⟩ }
    none demo_credential_id demo_private_key _ (by decide)

/-- C10: a successful register with an empty exclude list and a successful
authenticate each invoke check_user exactly once, so one register followed
by one authenticate invokes it exactly twice. -/
theorem c10_check_user_invoked_once_per_ceremony :
    (∀ (auth : Authenticator) (v : RpIdVerifier) (origin : Origin)
        (opts : PublicKeyCredentialCreationOptions) (ex : Option String)
        (cid : List Nat) (pk : Nat),
        opts.exclude_credentials = [] →
        ((client_register auth v origin opts ex cid pk).1).isOk = true →
        (client_register auth v origin opts ex cid pk).2.2.length = 1) ∧
    (∀ (auth : Authenticator) (v : RpIdVerifier) (origin : Origin)
        (opts : PublicKeyCredentialRequestOptions) (ex : Option String),
        ((client_authenticate auth v origin opts ex).1).isOk = true →
        (client_authenticate auth v origin opts ex).2.2.length = 1) ∧
    s1_register.2.2.length + s1_authenticate.2.2.length = 2 :=
  ⟨client_register_one_call, client_authenticate_one_call, by decide⟩

/-- C10 witness: the two laws applied to the S1 register and authenticate
legs. -/
theorem c10_check_user_invoked_once_per_ceremony_witness :
    (client_register (test_authenticator uv_mock) defaultVerifier origin_1p
      good_credential_creation_options none demo_credential_id
      demo_private_key).2.2.length = 1 ∧
    (client_authenticate s1_register.2.1 defaultVerifier origin_1p
      (good_credential_request_options s1_out.raw_id) none).2.2.length = 1 :=
  ⟨c10_check_user_invoked_once_per_ceremony.1 (test_authenticator uv_mock)
      defaultVerifier origin_1p good_credential_creation_options none
      demo_credential_id demo_private_key rfl (by decide),
   c10_check_user_invoked_once_per_ceremony.2.1 s1_register.2.1 defaultVerifier
      origin_1p (good_credential_request_options s1_out.raw_id) none (by decide)⟩

/-! ### Extra client data (C9) -/

/-- String bytes distribute over concatenation. -/
theorem strBytes_append (s t : String) :
    strBytes (s ++ t) = strBytes s ++ strBytes t := by
  simp [strBytes, String.data_append]

/-- An alphabet character for a valid sextet is a byte. -/
theorem sextetChar_lt : ∀ n, n < 64 → (sextetChar n).toNat < 256 := by
  decide

/-- The characters of a base64url encoding of bytes are bytes. -/
theorem b64urlEncode_lt (l : List Nat) (h : ∀ x ∈ l, x < 256) :
    ∀ b ∈ strBytes (b64urlEncode l), b < 256 := by
  intro b hb
  have hform : strBytes (b64urlEncode l) =
      (b64EncodeGroups l).map (fun n => (sextetChar n).toNat) := by
    simp [b64urlEncode, strBytes]
  rw [hform] at hb
  simp only [List.mem_map] at hb
  obtain ⟨a, ha, rfl⟩ := hb
  exact sextetChar_lt a (b64EncodeGroups_lt l h a ha)

/-- The code points of the register-leg client data JSON are bytes,
provided the extra client data is made of bytes. -/
theorem c9_cdj_create_lt (e : String) (he : ∀ b ∈ strBytes e, b < 256) :
    ∀ b ∈ strBytes (c9_cdj_create e), b < 256 := by
  intro b hb
  unfold c9_cdj_create collected_client_data_json at hb
  dsimp only at hb
  simp only [strBytes_append, List.mem_append] at hb
  rcases hb with ((((h | h) | h) | h) | h) | h
  · rcases h with ((h | h) | h) | h
    · revert b h; decide
    · revert b h; decide
    · revert b h; decide
    · exact b64urlEncode_lt demo_challenge (by decide) b h
  · revert b h; decide
  · revert b h; decide
  · revert b h; decide
  · rcases h with h | h
    · revert b h; decide
    · exact he b h
  · revert b h; decide

/-- The code points of the authenticate-leg client data JSON are bytes,
provided the extra client data is made of bytes. -/
theorem c9_cdj_get_lt (e : String) (he : ∀ b ∈ strBytes e, b < 256) :
    ∀ b ∈ strBytes (c9_cdj_get e), b < 256 := by
  intro b hb
  unfold c9_cdj_get collected_client_data_json at hb
  dsimp only at hb
  simp only [strBytes_append, List.mem_append] at hb
  rcases hb with ((((h | h) | h) | h) | h) | h
  · rcases h with ((h | h) | h) | h
    · revert b h; decide
    · revert b h; decide
    · revert b h; decide
    · exact b64urlEncode_lt demo_challenge2 (by decide) b h
  · revert b h; decide
  · revert b h; decide
  · revert b h; decide
  · rcases h with h | h
    · revert b h; decide
    · exact he b h
  · revert b h; decide

/-- The response of the S9 register leg, in closed form: the returned
clientDataJSON is the base64url encoding of the exact serialized collected
client data with the extra fields spliced in. -/
theorem c9_register_eq (e : String) :
    (c9_register e).1 = .ok
      { raw_id := demo_credential_id
        id := b64urlEncode demo_credential_id
        client_data_json := b64urlEncode (strBytes (c9_cdj_create e))
        attestation_object := ⟨"none", c9_mk_auth_data⟩
        authenticator_data := c9_mk_auth_data } := rfl

/-- The response of the S9 authenticate leg, in closed form. -/
theorem c9_authenticate_eq (e : String) :
    (c9_authenticate e).1 = .ok
      { raw_id := demo_credential_id
        client_data_json := b64urlEncode (strBytes (c9_cdj_get e))
        authenticator_data := c9_get_auth_data
        signature := ⟨demo_private_key,
          c9_get_auth_data.toBytes ++ sha256 (strBytes (c9_cdj_get e))⟩
        user_handle := none } := rfl

/-- C9: for any extra client data (of byte-sized code points), both the
register and the authenticate response carry a clientDataJSON that
base64url-decodes to exactly the serialized CollectedClientData whose extra
member is the supplied fragment, verbatim; deserializing it therefore
recovers the supplied extra data unchanged. -/
theorem c9_extra_client_data_round_trip (e : String)
    (he : ∀ b ∈ strBytes e, b < 256) :
    (∃ cred, (c9_register e).1 = .ok cred ∧
        b64urlDecode cred.client_data_json = some (strBytes (c9_cdj_create e))) ∧
    (∃ acred, (c9_authenticate e).1 = .ok acred ∧
        b64urlDecode acred.client_data_json = some (strBytes (c9_cdj_get e))) := by
  refine ⟨⟨_, c9_register_eq e, ?_⟩, ⟨_, c9_authenticate_eq e, ?_⟩⟩
  · exact b64urlDecode_encode _ (c9_cdj_create_lt e he)
  · exact b64urlDecode_encode _ (c9_cdj_get_lt e he)

/-- C9 witness: the round trip at the android package name extra data of
the test. -/
theorem c9_extra_client_data_round_trip_witness :
    (∃ cred, (c9_register android_extra).1 = .ok cred ∧
        b64urlDecode cred.client_data_json =
          some (strBytes (c9_cdj_create android_extra))) ∧
    (∃ acred, (c9_authenticate android_extra).1 = .ok acred ∧
        b64urlDecode acred.client_data_json =
          some (strBytes (c9_cdj_get android_extra))) :=
  c9_extra_client_data_round_trip android_extra (by decide)

end PasskeyRs
